import Mathlib

/-
Verification of the DatabaseModels library (src/databasemodels of the
repository, package copy src/src/databasemodels): a shallow embedding of
datatypes.py, helper.py and wrapper.py.

Embedding conventions:
- Dynamically typed values flowing through the codecs are modelled by the
  inductive PyVal.  The float payload is modelled by an exact rational;
  non-finite floats and rounding are outside the embedded fragment (the
  codecs under study only pass floats through unchanged).
- Fallible operations return Except String, the message standing for the
  raised exception class and text.
- The database connection is modelled by an explicit in-memory table state
  (DBState); executing a statement is recorded in a trace of DbOp values.
  Value adaptation performed by the SQL driver is outside the model: rows
  store host values directly.
-/

namespace DBModels

/-- A dynamically typed value, as handled by the converter functions of
datatypes.py (None, bool, int, float, str, list). -/
inductive PyVal where
  | none
  | bool (b : Bool)
  | int (n : Int)
  | float (q : Rat)
  | str (s : String)
  | list (xs : List PyVal)

/-- Numeric view used by equality: bool, int and float compare by value
across types (True == 1, 1 == 1.0), mirroring the host language. -/
def PyVal.toRatNum : PyVal → Option Rat
  | .bool b => some (if b then 1 else 0)
  | .int n => some (n : Rat)
  | .float q => some q
  | _ => Option.none

mutual

/-- Model of the host equality operator used by the BOOLEAN converter
(s == "t") and by row lookups: None equals only None, strings compare as
strings, lists compare elementwise, and numbers compare by value across
bool/int/float; values of unrelated types are unequal. -/
def pyEq : PyVal → PyVal → Bool
  | .none, .none => true
  | .str a, .str b => decide (a = b)
  | .list a, .list b => pyEqL a b
  | a, b =>
    match a.toRatNum, b.toRatNum with
    | some x, some y => decide (x = y)
    | _, _ => false

def pyEqL : List PyVal → List PyVal → Bool
  | [], [] => true
  | x :: xs, y :: ys => pyEq x y && pyEqL xs ys
  | _, _ => false

end

mutual

theorem pyEq_refl : (v : PyVal) → pyEq v v = true
  | .none => rfl
  | .bool b => by simp [pyEq, PyVal.toRatNum]
  | .int n => by simp [pyEq, PyVal.toRatNum]
  | .float q => by simp [pyEq, PyVal.toRatNum]
  | .str s => by simp [pyEq]
  | .list xs => by simp [pyEq, pyEqL_refl xs]

theorem pyEqL_refl : (l : List PyVal) → pyEqL l l = true
  | [] => rfl
  | x :: xs => by simp [pyEqL, pyEq_refl x, pyEqL_refl xs]

end

/-- Model of str(): exact on None, booleans, integers and strings (the
inputs the library codecs reach); the renderings of float and list values
are schematic, as no codec in the source applies str() to them. -/
def pyStr : PyVal → String
  | .none => "None"
  | .bool b => if b then "True" else "False"
  | .int n => toString n
  | .float q => toString q
  | .str s => s
  | .list _ => "[...]"

/-- Truthiness, the model of bool(): None, 0, 0.0, the empty string and the
empty list are falsy, everything else is truthy. -/
def pyTruthy : PyVal → Bool
  | .none => false
  | .bool b => b
  | .int n => decide (n ≠ 0)
  | .float q => decide (q ≠ 0)
  | .str s => !s.isEmpty
  | .list xs => !xs.isEmpty

def digitsVal (cs : List Char) : Nat :=
  cs.foldl (fun a c => a * 10 + (c.toNat - 48)) 0

/-- Decimal integer literal parsing as done by int() on a string: optional
surrounding whitespace, optional sign, one or more digits (underscore
separators are not modelled). -/
def parsePyInt (s : String) : Option Int :=
  match s.trim.toList with
  | [] => Option.none
  | c :: rest =>
    if c = '-' then
      if rest ≠ [] ∧ rest.all Char.isDigit then some (-(digitsVal rest : Int)) else Option.none
    else if c = '+' then
      if rest ≠ [] ∧ rest.all Char.isDigit then some (digitsVal rest : Int) else Option.none
    else
      if (c :: rest).all Char.isDigit then some (digitsVal (c :: rest) : Int) else Option.none

/-- Model of int(): identity on int, 0/1 on bool, truncation toward zero on
float, decimal parsing on str, TypeError otherwise (None and list). -/
def pyInt : PyVal → Except String PyVal
  | .bool b => .ok (.int (if b then 1 else 0))
  | .int n => .ok (.int n)
  | .float q => .ok (.int (q.num.tdiv (q.den : Int)))
  | .str s =>
    match parsePyInt s with
    | some n => .ok (.int n)
    | Option.none => .error "ValueError: invalid literal for int"
  | _ => .error "TypeError: int() argument must be a string or a number"

/-- Decimal float literal parsing as done by float() on a string: optional
surrounding whitespace and sign, digits with an optional fractional part
(exponents and the inf/nan spellings are not modelled; no codec under
study depends on them). -/
def parsePyFloatCore (cs : List Char) : Option Rat :=
  let intPart := cs.takeWhile Char.isDigit
  let rest := cs.dropWhile Char.isDigit
  match rest with
  | [] =>
    if intPart.isEmpty then Option.none else some ((digitsVal intPart : Nat) : Rat)
  | c :: rs =>
    if c = '.' then
      if rs.all Char.isDigit then
        if intPart.isEmpty ∧ rs.isEmpty then Option.none
        else some (((digitsVal intPart : Nat) : Rat) + ((digitsVal rs : Nat) : Rat) / ((10 : Rat) ^ rs.length))
      else Option.none
    else Option.none

def parsePyFloat (s : String) : Option Rat :=
  match s.trim.toList with
  | [] => Option.none
  | c :: rest =>
    if c = '-' then (parsePyFloatCore rest).map (fun q => -q)
    else if c = '+' then parsePyFloatCore rest
    else parsePyFloatCore (c :: rest)

/-- Model of float(): identity on float, exact injection on int and bool,
decimal parsing on str, TypeError otherwise. -/
def pyFloat : PyVal → Except String PyVal
  | .bool b => .ok (.float (if b then 1 else 0))
  | .int n => .ok (.float (n : Rat))
  | .float q => .ok (.float q)
  | .str s =>
    match parsePyFloat s with
    | some q => .ok (.float q)
    | Option.none => .error "ValueError: could not convert string to float"
  | _ => .error "TypeError: float() argument must be a string or a number"

/-- helper.py acceptNone: wraps a converter so that a None input is passed
through unchanged instead of being handed to the wrapped function. -/
def acceptNone (f : PyVal → Except String PyVal) : PyVal → Except String PyVal
  | .none => .ok .none
  | v => f v

/-- The ColumnType hierarchy of datatypes.py.  LiteralType carries its type
name and a converter/inverse pair (wrapped with acceptNone on
construction); PseudoType additionally carries a distinct raw name;
EnumType carries its closed literal set; NotNull, Unique, PrimaryKey and
Array are the ModifiedColumnType wrappers.  ForeignKey, whose codecs need
the database state, is modelled separately below. -/
inductive ColType where
  | literal (typeName : String) (converter inverse : PyVal → Except String PyVal)
  | pseudo (typeName rawName : String) (converter inverse : PyVal → Except String PyVal)
  | enum (typeName : String) (enums : List String)
  | notNull (t : ColType)
  | unique (t : ColType)
  | primaryKey (t : ColType)
  | array (t : ColType) (length : Option Nat)

/-- rawType: LiteralType and EnumType return their own type name,
PseudoType its raw name, and every ModifiedColumnType delegates to the
wrapped type (datatypes.py lines 364 to 366, 485 to 486, 525 to 527,
554 to 556). -/
def ColType.rawType : ColType → String
  | .literal typeName _ _ => typeName
  | .pseudo _ rawName _ _ => rawName
  | .enum typeName _ => typeName
  | .notNull t => t.rawType
  | .unique t => t.rawType
  | .primaryKey t => t.rawType
  | .array t _ => t.rawType

/-- primary: false for every base type, true for PrimaryKey, delegation for
the other modifiers (datatypes.py lines 246 to 248, 368 to 370, 446 to
448). -/
def ColType.primary : ColType → Bool
  | .literal _ _ _ => false
  | .pseudo _ _ _ _ => false
  | .enum _ _ => false
  | .notNull t => t.primary
  | .unique t => t.primary
  | .primaryKey _ => true
  | .array t _ => t.primary

/-- The textual DDL type fragment built by typeStatement: each modifier
appends its keyword after the fragment of the wrapped type. -/
def ColType.typeStatement : ColType → String
  | .literal typeName _ _ => typeName
  | .pseudo typeName _ _ _ => typeName
  | .enum typeName _ => typeName
  | .notNull t => t.typeStatement ++ " NOT NULL"
  | .unique t => t.typeStatement ++ " UNIQUE"
  | .primaryKey t => t.typeStatement ++ " PRIMARY KEY"
  | .array t (some n) => t.typeStatement ++ "[" ++ toString n ++ "]"
  | .array t Option.none => t.typeStatement ++ "[]"

def commaChar : Char := Char.ofNat 44

/-- The slice string[1:-1], dropping the first and last character. -/
def pySlice1m1 (s : String) : String := String.mk ((s.toList.drop 1).dropLast)

def pySplitCommaAux : List Char → List Char → List String
  | [], acc => [String.mk acc.reverse]
  | c :: rest, acc =>
    if c = commaChar then String.mk acc.reverse :: pySplitCommaAux rest []
    else pySplitCommaAux rest (c :: acc)

/-- The split string.split(","): splits at every comma; on the empty string
it returns a single empty piece. -/
def pySplitComma (s : String) : List String := pySplitCommaAux s.toList []

/-- The element list built by Array.convertDataFromString (datatypes.py
line 404): strip one character from each end, split at every comma, and map
the bare token NULL to a null element. -/
def naiveItems (s : String) : List PyVal :=
  (pySplitComma (pySlice1m1 s)).map (fun i => if i = "NULL" then PyVal.none else PyVal.str i)

/-- The length precondition of Array.convertDataFromString (datatypes.py
lines 405 to 406): a declared length that differs from the parsed item
count raises ValueError. -/
def lenMismatch : Option Nat → Nat → Bool
  | Option.none, _ => false
  | some n, k => decide (k ≠ n)

def arrayLengthMsg : String := "ValueError: Expected a different number of items"

def notSubscriptableMsg : String := "TypeError: NoneType object is not subscriptable"

def notIterableMsg : String := "TypeError: object is not iterable"

def notNullMsg : String := "TypeError: Attempted to fill not null field with null"

def mapExcept (f : PyVal → Except String PyVal) : List PyVal → Except String (List PyVal)
  | [] => .ok []
  | x :: xs => do
    let y ← f x
    let ys ← mapExcept f xs
    .ok (y :: ys)

/-- convertDataFromString for each ColumnType variant:
- LiteralType and PseudoType apply the acceptNone-wrapped converter
  (datatypes.py lines 472 to 475 and 488 to 489);
- EnumType returns the incoming value unchanged (lines 529 to 530);
- NotNull, Unique and PrimaryKey delegate to the wrapped type
  (lines 372 to 373);
- Array slices off the surrounding braces, splits at every comma, maps the
  bare token NULL to a null element, enforces the declared length, and
  decodes every element through the wrapped type (lines 403 to 407).  A
  non-string input (in particular a null) fails the slicing step, as the
  source performs string[1:-1] unconditionally. -/
def ColType.convertDataFromString : ColType → PyVal → Except String PyVal
  | .literal _ conv _, v => acceptNone conv v
  | .pseudo _ _ conv _, v => acceptNone conv v
  | .enum _ _, v => .ok v
  | .notNull t, v => t.convertDataFromString v
  | .unique t, v => t.convertDataFromString v
  | .primaryKey t, v => t.convertDataFromString v
  | .array t len, v =>
    match v with
    | .str s =>
      if lenMismatch len (naiveItems s).length then .error arrayLengthMsg
      else (mapExcept (fun x => t.convertDataFromString x) (naiveItems s)).map PyVal.list
    | _ => .error notSubscriptableMsg

/-- convertInsertableFromData for each ColumnType variant:
- LiteralType and PseudoType apply the acceptNone-wrapped inverse
  (datatypes.py lines 472 to 475 and 491 to 492);
- EnumType stringifies the value and rejects it when the string is not a
  member of the closed literal set; the None guard of the source compares
  the stringified value and therefore never fires (lines 532 to 538);
- NotNull rejects a null value and otherwise delegates (lines 428 to 431);
- Unique and PrimaryKey delegate (lines 375 to 376);
- Array encodes elementwise over the iterated input; iterating a string
  yields its characters, and a non-iterable input (None, bool, int, float)
  raises (lines 409 to 410). -/
def ColType.convertInsertableFromData : ColType → PyVal → Except String PyVal
  | .literal _ _ inv, v => acceptNone inv v
  | .pseudo _ _ _ inv, v => acceptNone inv v
  | .enum typeName enums, v =>
    if enums.contains (pyStr v) then .ok (.str (pyStr v))
    else .error ("TypeError: Attempted to insert " ++ pyStr v ++ " into enum " ++ typeName)
  | .notNull t, v =>
    match v with
    | .none => .error notNullMsg
    | _ => t.convertInsertableFromData v
  | .unique t, v => t.convertInsertableFromData v
  | .primaryKey t, v => t.convertInsertableFromData v
  | .array t _, v =>
    match v with
    | .list xs => (mapExcept (fun x => t.convertInsertableFromData x) xs).map PyVal.list
    | .str s => (mapExcept (fun x => t.convertInsertableFromData x) (s.toList.map (fun c => PyVal.str (String.mk [c])))).map PyVal.list
    | _ => .error notIterableMsg

def pyStrConv (v : PyVal) : Except String PyVal := .ok (.str (pyStr v))

/-- INTEGER = LiteralType("INTEGER", int, int). -/
def INTEGER : ColType := .literal "INTEGER" pyInt pyInt

/-- SERIAL = PseudoType("SERIAL", "INTEGER", int, int). -/
def SERIAL : ColType := .pseudo "SERIAL" "INTEGER" pyInt pyInt

/-- REAL = LiteralType("DOUBLE PRECISION", float, float). -/
def REAL : ColType := .literal "DOUBLE PRECISION" pyFloat pyFloat

/-- TEXT = LiteralType("TEXT", str, str). -/
def TEXT : ColType := .literal "TEXT" pyStrConv pyStrConv

/-- BOOL = LiteralType("BOOLEAN", lambda s: s == "t", bool). -/
def BOOL : ColType :=
  .literal "BOOLEAN" (fun s => .ok (.bool (pyEq s (.str "t")))) (fun d => .ok (.bool (pyTruthy d)))

/-- VARCHAR(n) = LiteralType("VARCHAR(n)", str, str). -/
def VARCHAR (n : Nat) : ColType := .literal ("VARCHAR(" ++ toString n ++ ")") pyStrConv pyStrConv

/-- CHAR(n) = LiteralType("CHAR(n)", str, str). -/
def CHAR (n : Nat) : ColType := .literal ("CHAR(" ++ toString n ++ ")") pyStrConv pyStrConv

/-- NUMERIC(p, s) = LiteralType("NUMERIC(p, s)", float, float). -/
def NUMERIC (p s : Nat) : ColType :=
  .literal ("NUMERIC(" ++ toString p ++ ", " ++ toString s ++ ")") pyFloat pyFloat

/-- Column (datatypes.py lines 207 to 233): a name paired with a
ColumnType. -/
structure ColumnDef where
  name : String
  type : ColType

def ColumnDef.rawType (c : ColumnDef) : String := c.type.rawType

/-- A modifier applied around a base ColumnType, for stating facts about
arbitrary ModifiedColumnType chains. -/
inductive Modifier where
  | notNull
  | unique
  | primaryKey
  | array (length : Option Nat)

def Modifier.apply : Modifier → ColType → ColType
  | .notNull, t => .notNull t
  | .unique, t => .unique t
  | .primaryKey, t => .primaryKey t
  | .array len, t => .array t len

def applyMods (mods : List Modifier) (base : ColType) : ColType :=
  mods.foldr Modifier.apply base

def Modifier.isScalarMod : Modifier → Bool
  | .array _ => false
  | _ => true

/-- The registered metadata of a record type, as stored on the wrapped
class by wrapper.py: ordered column definitions, the optional primary key
column, schema and table names, and the constructor argument names (the
fields that are not AUTO_FILLED). -/
structure ModelMeta where
  schemaName : String
  tableName : String
  columns : List ColumnDef
  primaryKey : Option ColumnDef
  argsNames : List String

/-- The dataclass default marker of a field: MISSING, NO_DEFAULT,
AUTO_FILLED, or any other value (which registration rejects). -/
inductive DefaultKind where
  | missingDefault
  | noDefault
  | autoFilled
  | otherDefault

structure FieldDef where
  name : String
  type : ColType
  default : DefaultKind

/-- COLUMN_NAME.match semantics (datatypes.py lines 204 and 221): re.match
anchors at the start only, so the assertion requires a nonempty name whose
first character is a letter or underscore. -/
def validColumnName (s : String) : Bool :=
  match s.toList with
  | [] => false
  | c :: _ => c.isAlpha || c = '_'

def validDefault : DefaultKind → Bool
  | .missingDefault => true
  | .noDefault => true
  | .autoFilled => true
  | .otherDefault => false

def invalidNameMsg : String := "AssertionError: not a valid column name"

def connNameMsg : String := "AssertionError: Column name must not be conn"

def dupPkMsg : String := "TypeError: Has two primary keys defined"

def badDefaultMsg : String :=
  "TypeError: does not declare default type of MISSING, NO_DEFAULT, or AUTO_FILLED"

/-- argsNames growth (wrapper.py lines 42 to 43): the field name becomes a
constructor argument unless its default is AUTO_FILLED. -/
def appendArg (args : List String) (f : FieldDef) : List String :=
  match f.default with
  | .autoFilled => args
  | _ => args ++ [f.name]

/-- The field loop of model.wrapped (wrapper.py lines 38 to 53): for each
field, Column.fromField validates the name; the field name is appended to
the argument list unless the default is AUTO_FILLED; the column is
recorded; a second primary column raises; a default other than MISSING,
NO_DEFAULT or AUTO_FILLED raises. -/
def registerModelAux :
    List FieldDef → List ColumnDef → Option ColumnDef → List String →
      Except String (List ColumnDef × Option ColumnDef × List String)
  | [], defs, pk, args => .ok (defs, pk, args)
  | f :: rest, defs, pk, args =>
    if validColumnName f.name = false then .error invalidNameMsg
    else if f.name = "conn" then .error connNameMsg
    else if f.type.primary then
      match pk with
      | some _ => .error dupPkMsg
      | Option.none =>
        if validDefault f.default then
          registerModelAux rest (defs ++ [ColumnDef.mk f.name f.type])
            (some (ColumnDef.mk f.name f.type)) (appendArg args f)
        else .error badDefaultMsg
    else
      if validDefault f.default then
        registerModelAux rest (defs ++ [ColumnDef.mk f.name f.type]) pk (appendArg args f)
      else .error badDefaultMsg

/-- model(schema, table) applied to a record type (wrapper.py lines 17 to
70): resolve the table name (lower-cased class name by default) and schema
name (public by default), then run the field loop and build the in-memory
metadata.  Registration is a pure function of the declared fields: no
database state appears in its type, as the source issues no statement
here. -/
def registerModel (schema table : Option String) (clsName : String) (fields : List FieldDef) :
    Except String ModelMeta :=
  let tableName := table.getD clsName.toLower
  let schemaName := schema.getD "public"
  (registerModelAux fields [] Option.none []).map
    (fun t => ModelMeta.mk schemaName tableName t.1 t.2.1 t.2.2)

/-- A persisted row: one stored value per column name. -/
abbrev Row := List (String × PyVal)

/-- The in-memory model of the connected database table: its rows plus the
next value of the serial sequence used for an auto-filled primary key. -/
structure DBState where
  rows : List Row
  nextId : Int

/-- The kind of SQL statement executed against the connection; operations
below record their executed statements in a trace. -/
inductive DbOp where
  | insertStmt
  | selectStmt
  | updateStmt

/-- getattr on a record or row by column name: the first binding wins. -/
def getattrR (r : Row) (a : String) : PyVal :=
  match r with
  | [] => PyVal.none
  | (k, v) :: rest => if k = a then v else getattrR rest a

def noPkMsg : String := "TypeError: does not contain a primary key"

def updateNoPkMsg : String := "TypeError: Can not update a database model without a primary key."

/-- The value the INSERT stores for column c: caller-supplied for the
constructor argument columns (the only ones named in the statement,
wrapper.py lines 198 to 218), the next serial value for an auto-filled
primary key, and a database default (left null here) for any other
auto-filled column. -/
def assignedValue (m : ModelMeta) (db : DBState) (r : Row) (c : ColumnDef) : PyVal :=
  if m.argsNames.contains c.name then getattrR r c.name
  else if m.primaryKey.map ColumnDef.name = some (c.name) then .int db.nextId
  else PyVal.none

/-- insert (wrapper.py lines 198 to 226): executes one INSERT with a
RETURNING clause over all columns and rehydrates the record from the
returned row, so the record afterwards equals the stored row (including
the database-assigned primary key). -/
def insert (m : ModelMeta) (r : Row) (db : DBState) : DBState × Row × List DbOp :=
  let newRow : Row := m.columns.map (fun c => (c.name, assignedValue m db r c))
  (DBState.mk (db.rows ++ [newRow]) (db.nextId + 1), newRow, [DbOp.insertStmt])

/-- The row written by UPDATE ... SET (cols) = (record values): every
column takes the record value. -/
def snapshotRow (m : ModelMeta) (r : Row) : Row :=
  m.columns.map (fun c => (c.name, getattrR r c.name))

def updateRow (m : ModelMeta) (pkCol : ColumnDef) (r : Row) (row : Row) : Row :=
  if pyEq (getattrR row pkCol.name) (getattrR r pkCol.name) then snapshotRow m r else row

/-- update (wrapper.py lines 228 to 253): raises without a primary key;
otherwise executes one UPDATE of all columns keyed by the current primary
key value and returns None — the affected row count is never read. -/
def update (m : ModelMeta) (r : Row) (db : DBState) :
    Except String (DBState × Row × List DbOp) :=
  match m.primaryKey with
  | Option.none => .error updateNoPkMsg
  | some pkCol =>
    .ok (DBState.mk (db.rows.map (updateRow m pkCol r)) db.nextId, r, [DbOp.updateStmt])

/-- instatiateAll with the filter WHERE pk = v (wrapper.py lines 153 to
186): one SELECT returning every row whose primary key column equals v,
each row fully materialized into a record. -/
def instatiateAll (db : DBState) (pkName : String) (v : PyVal) : List Row :=
  db.rows.filter (fun row => pyEq (getattrR row pkName) v)

/-- The second half of insertOrUpdate (wrapper.py lines 262 to 270): fetch
the rows matching the current primary key value; insert when none exists,
update otherwise. -/
def insertOrUpdateStep2 (m : ModelMeta) (pkCol : ColumnDef) (s : DBState × Row × List DbOp) :
    Except String (DBState × Row × List DbOp) :=
  if (instatiateAll s.1 pkCol.name (getattrR s.2.1 pkCol.name)).length = 0 then
    .ok ((insert m s.2.1 s.1).1, (insert m s.2.1 s.1).2.1,
      s.2.2 ++ DbOp.selectStmt :: (insert m s.2.1 s.1).2.2)
  else
    (update m s.2.1 s.1).map (fun t => (t.1, t.2.1, s.2.2 ++ DbOp.selectStmt :: t.2.2))

/-- insertOrUpdate (wrapper.py lines 255 to 270): raises without a primary
key; when the primary key value is unset it inserts (without returning),
and in every case it then fetches by the current primary key value and
inserts or updates depending on whether a row was found. -/
def insertOrUpdate (m : ModelMeta) (r : Row) (db : DBState) :
    Except String (DBState × Row × List DbOp) :=
  match m.primaryKey with
  | Option.none => .error noPkMsg
  | some pkCol =>
    insertOrUpdateStep2 m pkCol
      (match getattrR r pkCol.name with
        | PyVal.none => insert m r db
        | _ => (db, r, []))

def fkNoPkMsg : String := "TypeError: contains no primary key"

def indexErrorMsg : String := "IndexError: list index out of range"

/-- ForeignKey (datatypes.py lines 292 to 347): holds the referenced model,
schema, table and column, and stores the referenced column rawType at
construction time. -/
structure ForeignKey where
  model : ModelMeta
  schema : String
  table : String
  column : ColumnDef
  rawTypeStored : String

/-- ForeignKey.init (datatypes.py lines 297 to 303): _rawType is the
referenced column rawType. -/
def ForeignKey.init (m : ModelMeta) (schema table : String) (column : ColumnDef) : ForeignKey :=
  ForeignKey.mk m schema table column column.rawType

def ForeignKey.rawType (fk : ForeignKey) : String := fk.rawTypeStored

/-- ForeignKey.convertDataFromString (datatypes.py lines 328 to 335):
raises when the referenced model has no primary key; otherwise one fetch
of the rows whose primary key equals the stored value, taking element 0
(an IndexError when no row matches). -/
def ForeignKey.convertDataFromString (fk : ForeignKey) (db : DBState) (v : PyVal) :
    Except String (Row × List DbOp) :=
  match fk.model.primaryKey with
  | Option.none => .error fkNoPkMsg
  | some pkCol =>
    match instatiateAll db pkCol.name v with
    | [] => .error indexErrorMsg
    | row :: _ => .ok (row, [DbOp.selectStmt])

/-- ForeignKey.convertInsertableFromData (datatypes.py lines 337 to 344):
raises when the referenced model has no primary key; otherwise upserts the
referenced record and returns its primary key attribute. -/
def ForeignKey.convertInsertableFromData (fk : ForeignKey) (r : Row) (db : DBState) :
    Except String (DBState × PyVal × List DbOp) :=
  match fk.model.primaryKey with
  | Option.none => .error fkNoPkMsg
  | some pkCol =>
    (insertOrUpdate fk.model r db).map (fun s => (s.1, getattrR s.2.1 pkCol.name, s.2.2))

/-- decode composed after encode, the round trip of the codec contract. -/
def roundTrip (t : ColType) (v : PyVal) : Except String PyVal :=
  (t.convertInsertableFromData v).bind t.convertDataFromString

/-- The scalar base types of the library whose converters are the int,
float and str builtins. -/
inductive BaseScalar where
  | integer
  | serial
  | real
  | text
  | varchar (n : Nat)
  | char (n : Nat)
  | numeric (p s : Nat)

def BaseScalar.toColType : BaseScalar → ColType
  | .integer => INTEGER
  | .serial => SERIAL
  | .real => REAL
  | .text => TEXT
  | .varchar n => VARCHAR n
  | .char n => CHAR n
  | .numeric p s => NUMERIC p s

/-- The legal host domain of each scalar base type: host integers for the
int-converted types, host floats for the float-converted types, host
strings for the str-converted types. -/
def BaseScalar.inDomain : BaseScalar → PyVal → Prop
  | .integer, v => ∃ n, v = PyVal.int n
  | .serial, v => ∃ n, v = PyVal.int n
  | .real, v => ∃ q, v = PyVal.float q
  | .numeric _ _, v => ∃ q, v = PyVal.float q
  | .text, v => ∃ s, v = PyVal.str s
  | .varchar _, v => ∃ s, v = PyVal.str s
  | .char _, v => ∃ s, v = PyVal.str s

/-- The Person example model of the repository (example.py): an
AUTO_FILLED SERIAL primary key and a required text column. -/
def idCol : ColumnDef := ColumnDef.mk "id" (ColType.primaryKey SERIAL)

def personColumns : List ColumnDef :=
  [idCol, ColumnDef.mk "name" (ColType.notNull TEXT)]

def personMeta : ModelMeta :=
  ModelMeta.mk "example" "people" personColumns (some idCol) ["name"]

/-- A freshly constructed record whose primary key is still unset. -/
def hazelRec : Row := [("id", PyVal.none), ("name", PyVal.str "Hazel")]

/-- The same record as persisted with primary key 1. -/
def hazelRow : Row := [("id", PyVal.int 1), ("name", PyVal.str "Hazel")]

def emptyDB : DBState := DBState.mk [] 1

def exampleDB : DBState := DBState.mk [hazelRow] 2

def decodedLength : Except String PyVal → Option Nat
  | .ok (.list xs) => some xs.length
  | _ => Option.none

theorem map_eq_self_of {α : Type} (l : List α) (f : α → α) (h : ∀ x ∈ l, f x = x) :
    l.map f = l := by
  induction l with
  | nil => rfl
  | cons a t ih =>
    rw [List.map_cons, h a (List.mem_cons_self a t), ih (fun x hx => h x (List.mem_cons_of_mem a hx))]

/-- Reading back any column named in the column list from the row written
by UPDATE yields the record value of that column. -/
theorem getattrR_snapshotRow (m : ModelMeta) (r : Row) (a : String)
    (h : a ∈ m.columns.map ColumnDef.name) :
    getattrR (snapshotRow m r) a = getattrR r a := by
  have hgen : ∀ cols : List ColumnDef, a ∈ cols.map ColumnDef.name →
      getattrR (cols.map (fun c => (c.name, getattrR r c.name))) a = getattrR r a := by
    intro cols
    induction cols with
    | nil => intro h2; simp at h2
    | cons c cs ih =>
      intro h2
      rw [List.map_cons]
      by_cases hc : c.name = a
      · simp [getattrR, hc]
      · rw [show getattrR ((c.name, getattrR r c.name) :: cs.map (fun c => (c.name, getattrR r c.name))) a
            = getattrR (cs.map (fun c => (c.name, getattrR r c.name))) a from by simp [getattrR, hc]]
        apply ih
        rw [List.map_cons] at h2
        rcases List.mem_cons.mp h2 with h4 | h4
        · exact absurd h4.symm hc
        · exact h4
  exact hgen m.columns h

/-- A fetch with a nonzero result length exhibits a stored row matching the
primary key value. -/
theorem exists_match_of_fetch (db : DBState) (pkName : String) (v : PyVal)
    (h : (instatiateAll db pkName v).length ≠ 0) :
    ∃ row ∈ db.rows, pyEq (getattrR row pkName) v = true := by
  have h2 : instatiateAll db pkName v ≠ [] := fun he => h (by rw [he]; rfl)
  obtain ⟨row, hrow⟩ := List.exists_mem_of_ne_nil _ h2
  have h3 := List.mem_filter.mp
    (show row ∈ List.filter (fun row => pyEq (getattrR row pkName) v) db.rows from hrow)
  exact ⟨row, h3.1, h3.2⟩

/-- After the fetch-then-insert-or-update step, the operation succeeds and
the database holds a row whose primary key matches the one of the record
the caller now holds. -/
theorem insertOrUpdateStep2_persists (m : ModelMeta) (pkCol : ColumnDef)
    (s : DBState × Row × List DbOp)
    (hpk : m.primaryKey = some pkCol)
    (hmem : pkCol.name ∈ m.columns.map ColumnDef.name) :
    ∃ db2 r2 ops, insertOrUpdateStep2 m pkCol s = .ok (db2, r2, ops) ∧
      ∃ rowp ∈ db2.rows, pyEq (getattrR rowp pkCol.name) (getattrR r2 pkCol.name) = true := by
  by_cases hlen : (instatiateAll s.1 pkCol.name (getattrR s.2.1 pkCol.name)).length = 0
  · refine ⟨(insert m s.2.1 s.1).1, (insert m s.2.1 s.1).2.1,
      s.2.2 ++ DbOp.selectStmt :: (insert m s.2.1 s.1).2.2, ?_, ?_⟩
    · simp only [insertOrUpdateStep2]
      rw [if_pos hlen]
    · exact ⟨(insert m s.2.1 s.1).2.1, by simp [insert], pyEq_refl _⟩
  · obtain ⟨row0, hmem0, hpred0⟩ :=
      exists_match_of_fetch s.1 pkCol.name (getattrR s.2.1 pkCol.name) hlen
    have hupd : update m s.2.1 s.1 =
        .ok (DBState.mk (s.1.rows.map (updateRow m pkCol s.2.1)) s.1.nextId, s.2.1,
          [DbOp.updateStmt]) := by
      simp only [update, hpk]
    refine ⟨DBState.mk (s.1.rows.map (updateRow m pkCol s.2.1)) s.1.nextId, s.2.1,
      s.2.2 ++ DbOp.selectStmt :: [DbOp.updateStmt], ?_, ?_⟩
    · simp only [insertOrUpdateStep2]
      rw [if_neg hlen, hupd]
      rfl
    · refine ⟨snapshotRow m s.2.1, ?_, ?_⟩
      · have himg := List.mem_map_of_mem (updateRow m pkCol s.2.1) hmem0
        rwa [show updateRow m pkCol s.2.1 row0 = snapshotRow m s.2.1 from by
          simp [updateRow, hpred0]] at himg
      · rw [getattrR_snapshotRow m s.2.1 pkCol.name hmem]
        exact pyEq_refl _

/-- insertOrUpdate on a model with a primary key always succeeds and leaves
a row in the database whose primary key matches the record it hands
back. -/
theorem insertOrUpdate_persists (m : ModelMeta) (pkCol : ColumnDef) (r : Row) (db : DBState)
    (hpk : m.primaryKey = some pkCol)
    (hmem : pkCol.name ∈ m.columns.map ColumnDef.name) :
    ∃ db2 r2 ops, insertOrUpdate m r db = .ok (db2, r2, ops) ∧
      ∃ rowp ∈ db2.rows, pyEq (getattrR rowp pkCol.name) (getattrR r2 pkCol.name) = true := by
  have hmain : insertOrUpdate m r db = insertOrUpdateStep2 m pkCol
      (match getattrR r pkCol.name with
        | PyVal.none => insert m r db
        | _ => (db, r, [])) := by
    simp only [insertOrUpdate, hpk]
  rw [hmain]
  exact insertOrUpdateStep2_persists m pkCol _ hpk hmem

/-- Applying a chain of NotNull, Unique or PrimaryKey modifiers changes
neither converter, so the round trip of the chain is the round trip of the
base type on any non-null value. -/
theorem roundTrip_scalarMods (mods : List Modifier) (t : ColType) (v : PyVal)
    (hmods : ∀ mo ∈ mods, mo.isScalarMod = true) (hvn : v ≠ PyVal.none) :
    roundTrip (applyMods mods t) v = roundTrip t v := by
  induction mods with
  | nil => rfl
  | cons mo rest ih =>
    have hrest : ∀ x ∈ rest, Modifier.isScalarMod x = true :=
      fun x hx => hmods x (List.mem_cons_of_mem mo hx)
    have ihr := ih hrest
    cases mo with
    | notNull =>
      cases v with
      | none => exact absurd rfl hvn
      | bool b => exact ihr
      | int n => exact ihr
      | float q => exact ihr
      | str s => exact ihr
      | list xs => exact ihr
    | unique => exact ihr
    | primaryKey => exact ihr
    | array len =>
      exact absurd (hmods (Modifier.array len) (List.mem_cons_self _ _))
        (by simp [Modifier.isScalarMod])

/-- When the loop of model.wrapped reaches a second primary column after
only passing validations, it raises the duplicate primary key error. -/
theorem registerModelAux_dup (fields : List FieldDef) :
    ∀ (defs : List ColumnDef) (pk : Option ColumnDef) (args : List String),
    (∀ f ∈ fields, validColumnName f.name = true ∧ f.name ≠ "conn" ∧ validDefault f.default = true) →
    (if pk.isSome then 1 else 2) ≤ fields.countP (fun f => f.type.primary) →
    registerModelAux fields defs pk args = .error dupPkMsg := by
  induction fields with
  | nil =>
    intro defs pk args _ hcount
    cases pk <;> simp at hcount
  | cons f rest ih =>
    intro defs pk args hvalid hcount
    obtain ⟨h1, h2, h3⟩ := hvalid f (List.mem_cons_self f rest)
    have hvrest : ∀ g ∈ rest, validColumnName g.name = true ∧ g.name ≠ "conn" ∧ validDefault g.default = true :=
      fun g hg => hvalid g (List.mem_cons_of_mem f hg)
    rw [List.countP_cons] at hcount
    cases hp : f.type.primary with
    | true =>
      cases pk with
      | some c => simp [registerModelAux, h1, h2, hp]
      | none =>
        have hcount2 : (if (some (ColumnDef.mk f.name f.type)).isSome then 1 else 2) ≤
            rest.countP (fun f => f.type.primary) := by
          show (1 : Nat) ≤ rest.countP (fun f => f.type.primary)
          rw [hp] at hcount
          rw [if_pos (rfl : (true : Bool) = true)] at hcount
          have hcount3 : (2 : Nat) ≤ rest.countP (fun f => f.type.primary) + 1 := hcount
          omega
        simp only [registerModelAux]
        rw [if_neg (by simp [h1]), if_neg h2, if_pos (by rw [hp]), if_pos h3]
        exact ih _ _ _ hvrest hcount2
    | false =>
      have hcount2 : (if pk.isSome then 1 else 2) ≤ rest.countP (fun f => f.type.primary) := by
        rw [hp] at hcount
        have hcount3 : (if pk.isSome then 1 else 2) ≤
            rest.countP (fun f => f.type.primary) + 0 := hcount
        rwa [Nat.add_zero] at hcount3
      simp only [registerModelAux]
      rw [if_neg (by simp [h1]), if_neg h2, if_neg (by rw [hp]; exact Bool.false_ne_true),
        if_pos h3]
      exact ih _ _ _ hvrest hcount2

def moodEnum : ColType := .enum "mood" ["happy", "sad"]

def personFK : ForeignKey := ForeignKey.init personMeta "example" "people" idCol

def irisRec : Row := [("id", PyVal.int 5), ("name", PyVal.str "Iris")]

def twoPkFields : List FieldDef :=
  [FieldDef.mk "a" (ColType.primaryKey INTEGER) DefaultKind.noDefault,
   FieldDef.mk "b" (ColType.primaryKey INTEGER) DefaultKind.noDefault]

/-- C1 counterexample: the claimed round trip fails for BOOL at the host
value True: the inverse bool() yields True, and the converter compares
that value with the string "t", so decoding the encoding of True returns
False. -/
theorem claim_C1_counterexample :
    roundTrip BOOL (PyVal.bool true) = .ok (PyVal.bool false) ∧
      roundTrip BOOL (PyVal.bool true) ≠ .ok (PyVal.bool true) :=
  ⟨rfl, fun h => Bool.noConfusion (PyVal.bool.inj (Except.ok.inj ((rfl :
      roundTrip BOOL (PyVal.bool true) = Except.ok (PyVal.bool false)).symm.trans h)))⟩

/-- C1 amended: for the scalar types whose converters are the int, float
and str builtins (INTEGER, SERIAL, REAL, TEXT, VARCHAR(n), CHAR(n),
NUMERIC(p, s)) and every chain of NotNull, Unique and PrimaryKey modifiers
over them, decoding the encoding of a host value in the legal domain
returns the value unchanged; BOOL violates the round trip (see the
counterexample). -/
theorem claim_C1_thm (b : BaseScalar) (mods : List Modifier) (v : PyVal)
    (hmods : ∀ mo ∈ mods, mo.isScalarMod = true) (hv : b.inDomain v) :
    roundTrip (applyMods mods b.toColType) v = .ok v := by
  have hvn : v ≠ PyVal.none := by
    cases b <;> obtain ⟨x, rfl⟩ := hv <;> exact fun h => nomatch h
  rw [roundTrip_scalarMods mods b.toColType v hmods hvn]
  cases b <;> obtain ⟨x, rfl⟩ := hv <;> rfl

theorem claim_C1_witness :
    roundTrip (applyMods [Modifier.notNull] BaseScalar.integer.toColType) (PyVal.int 5)
      = .ok (PyVal.int 5) :=
  claim_C1_thm BaseScalar.integer [Modifier.notNull] (PyVal.int 5)
    (by intro mo hmo
        rw [List.mem_singleton] at hmo
        subst hmo
        rfl)
    ⟨5, rfl⟩

/-- C2: Array decode does not honor quoting: on the one-element text array
rendering (a quoted element containing a comma) the naive comma split of
datatypes.py line 404 produces two elements, cutting the quoted element in
half, instead of the single element a,b the quote-aware grammar (and
splitArrayString in helper.py, which Array decode never calls) would
produce. -/
theorem claim_C2_thm :
    (ColType.array TEXT Option.none).convertDataFromString (PyVal.str "\x7b\"a,b\"\x7d") =
        .ok (PyVal.list [PyVal.str "\"a", PyVal.str "b\""]) ∧
      decodedLength
        ((ColType.array TEXT Option.none).convertDataFromString (PyVal.str "\x7b\"a,b\"\x7d"))
        = some 2 :=
  ⟨rfl, rfl⟩

/-- C3: insertOrUpdate on a record whose primary key value is unset does
not stop after the insert: the missing early return in wrapper.py line 260
lets the call fall through to the fetch, which now finds the freshly
inserted row, so an UPDATE of that row is also executed — the trace is
insert, select, update rather than insert alone (no second row is
created). -/
theorem claim_C3_thm :
    insertOrUpdate personMeta hazelRec emptyDB =
      .ok (DBState.mk [hazelRow] 2, hazelRow,
        [DbOp.insertStmt, DbOp.selectStmt, DbOp.updateStmt]) :=
  rfl

/-- C4: registering a record type whose fields resolve two primary columns
fails with the duplicate primary key error; registration is a pure
function building only the in-memory metadata (no database state appears
in its type), so the failure precedes any DDL or statement. -/
theorem claim_C4_thm (schema table : Option String) (clsName : String) (fields : List FieldDef)
    (hvalid : ∀ f ∈ fields,
      validColumnName f.name = true ∧ f.name ≠ "conn" ∧ validDefault f.default = true)
    (hdup : 2 ≤ fields.countP (fun f => f.type.primary)) :
    registerModel schema table clsName fields = .error dupPkMsg := by
  have haux : registerModelAux fields [] Option.none [] = .error dupPkMsg :=
    registerModelAux_dup fields [] Option.none [] hvalid hdup
  simp [registerModel, haux, Except.map]

theorem claim_C4_witness :
    registerModel Option.none Option.none "Bad" twoPkFields = .error dupPkMsg :=
  claim_C4_thm Option.none Option.none "Bad" twoPkFields
    (by intro f hf
        simp only [twoPkFields, List.mem_cons, List.mem_singleton] at hf
        rcases hf with rfl | rfl | h
        · exact ⟨rfl, by decide, rfl⟩
        · exact ⟨rfl, by decide, rfl⟩
        · exact absurd h (List.not_mem_nil f))
    (by decide)

/-- C5 counterexample: EnumType encode does not propagate a null value: it
stringifies it to the text None first, the guard of the source compares
that string (never None itself), and membership in the enum fails, so a
TypeError is raised instead of returning the null unchanged. -/
theorem claim_C5_counterexample :
    moodEnum.convertInsertableFromData PyVal.none =
        .error "TypeError: Attempted to insert None into enum mood" ∧
      moodEnum.convertInsertableFromData PyVal.none ≠ .ok PyVal.none :=
  ⟨rfl, fun h => Except.noConfusion ((rfl : moodEnum.convertInsertableFromData PyVal.none =
      Except.error "TypeError: Attempted to insert None into enum mood").symm.trans h)⟩

/-- C5 amended: the acceptNone wrapping makes both converters of
LiteralType and PseudoType propagate a null unchanged, and EnumType decode
passes a null through; but Array decode slices its input unconditionally
and Array encode iterates it, so both raise on a top-level null instead of
propagating it, and EnumType encode rejects a null (see the
counterexample) because its guard tests the stringified value. -/
theorem claim_C5_thm :
    (∀ (typeName : String) (conv inv : PyVal → Except String PyVal),
        (ColType.literal typeName conv inv).convertDataFromString PyVal.none = .ok PyVal.none ∧
        (ColType.literal typeName conv inv).convertInsertableFromData PyVal.none = .ok PyVal.none) ∧
    (∀ (typeName rawName : String) (conv inv : PyVal → Except String PyVal),
        (ColType.pseudo typeName rawName conv inv).convertDataFromString PyVal.none = .ok PyVal.none ∧
        (ColType.pseudo typeName rawName conv inv).convertInsertableFromData PyVal.none = .ok PyVal.none) ∧
    (∀ (typeName : String) (enums : List String),
        (ColType.enum typeName enums).convertDataFromString PyVal.none = .ok PyVal.none) ∧
    ∀ (t : ColType) (len : Option Nat),
        (ColType.array t len).convertDataFromString PyVal.none = .error notSubscriptableMsg ∧
        (ColType.array t len).convertInsertableFromData PyVal.none = .error notIterableMsg :=
  ⟨fun _ _ _ => ⟨rfl, rfl⟩, fun _ _ _ _ => ⟨rfl, rfl⟩, fun _ _ => rfl, fun _ _ => ⟨rfl, rfl⟩⟩

/-- C6: decoding the textual empty array through an Array column yields a
one-element list (the comma split of the empty item string returns one
empty piece, which the child type then decodes), not the empty list the
repository test suite expects. -/
theorem claim_C6_thm :
    (ColType.array BOOL Option.none).convertDataFromString (PyVal.str "\x7b\x7d") =
        .ok (PyVal.list [PyVal.bool false]) ∧
      decodedLength
        ((ColType.array BOOL Option.none).convertDataFromString (PyVal.str "\x7b\x7d"))
        = some 1 :=
  ⟨rfl, rfl⟩

/-- C7 counterexample: a fixed-length array whose input has a different
number of elements raises a ValueError: decoding does not proceed and no
warning path exists. -/
theorem claim_C7_counterexample :
    (ColType.array BOOL (some 2)).convertDataFromString (PyVal.str "\x7bt\x7d") =
      .error arrayLengthMsg :=
  rfl

/-- C7 amended: for every declared length and input string whose parsed
item count differs from it, Array decode raises the ValueError before
decoding any element; the mismatch is fatal, not a warning. -/
theorem claim_C7_thm (t : ColType) (n : Nat) (s : String)
    (h : (naiveItems s).length ≠ n) :
    (ColType.array t (some n)).convertDataFromString (PyVal.str s) = .error arrayLengthMsg := by
  have hm : lenMismatch (some n) (naiveItems s).length = true := by
    simp only [lenMismatch, decide_eq_true_eq]
    exact h
  simp [ColType.convertDataFromString, hm]

theorem claim_C7_witness :
    (ColType.array TEXT (some 3)).convertDataFromString (PyVal.str "\x7ba,b\x7d") =
      .error arrayLengthMsg :=
  claim_C7_thm TEXT 3 "\x7ba,b\x7d" (by decide)

/-- C8: ForeignKey decode is a single fetch that materializes the
referenced record by primary key value (the returned row matches the key);
ForeignKey encode first upserts the referenced record and then returns its
primary key attribute, which matches a row then present in the
database. -/
theorem claim_C8_thm (fk : ForeignKey) (pkCol : ColumnDef) (db : DBState) (v : PyVal)
    (row : Row) (rest : List Row) (r : Row)
    (hpk : fk.model.primaryKey = some pkCol)
    (hmem : pkCol.name ∈ fk.model.columns.map ColumnDef.name) :
    (instatiateAll db pkCol.name v = row :: rest →
      fk.convertDataFromString db v = .ok (row, [DbOp.selectStmt]) ∧
      pyEq (getattrR row pkCol.name) v = true) ∧
    ∃ db2 r2 ops, insertOrUpdate fk.model r db = .ok (db2, r2, ops) ∧
      fk.convertInsertableFromData r db = .ok (db2, getattrR r2 pkCol.name, ops) ∧
      ∃ rowp ∈ db2.rows, pyEq (getattrR rowp pkCol.name) (getattrR r2 pkCol.name) = true := by
  constructor
  · intro hfetch
    constructor
    · simp only [ForeignKey.convertDataFromString, hpk, hfetch]
    · have hrowmem : row ∈ instatiateAll db pkCol.name v := by
        rw [hfetch]
        exact List.mem_cons_self row rest
      exact (List.mem_filter.mp (show row ∈
        List.filter (fun rowx => pyEq (getattrR rowx pkCol.name) v) db.rows from hrowmem)).2
  · obtain ⟨db2, r2, ops, h1, h2⟩ := insertOrUpdate_persists fk.model pkCol r db hpk hmem
    refine ⟨db2, r2, ops, h1, ?_, h2⟩
    simp only [ForeignKey.convertInsertableFromData, hpk, h1]
    rfl

theorem claim_C8_witness :
    personFK.convertDataFromString exampleDB (PyVal.int 1) = .ok (hazelRow, [DbOp.selectStmt]) :=
  ((claim_C8_thm personFK idCol exampleDB (PyVal.int 1) hazelRow [] hazelRow rfl
      (by decide)).1 rfl).1

/-- C9: the raw storage type is transparent to every modifier chain, SERIAL
resolves to the raw type INTEGER, and a ForeignKey stores and reports the
referenced column raw type; no modifier keyword ever enters the raw
type. -/
theorem claim_C9_thm :
    (∀ (mods : List Modifier) (base : ColType), (applyMods mods base).rawType = base.rawType) ∧
      SERIAL.rawType = "INTEGER" ∧
      ∀ (m : ModelMeta) (schema table : String) (col : ColumnDef),
        (ForeignKey.init m schema table col).rawType = col.type.rawType := by
  refine ⟨?_, rfl, fun _ _ _ _ => rfl⟩
  intro mods base
  induction mods with
  | nil => rfl
  | cons mo rest ih => cases mo <;> exact ih

/-- C10: update on a record whose primary key value matches no stored row
executes the UPDATE statement, returns normally with no error and no
affected-row count (the operation result carries only the state, record
and statement trace), and leaves the database state unchanged. -/
theorem claim_C10_thm (m : ModelMeta) (pkCol : ColumnDef) (r : Row) (db : DBState)
    (hpk : m.primaryKey = some pkCol)
    (hnone : ∀ row ∈ db.rows, pyEq (getattrR row pkCol.name) (getattrR r pkCol.name) = false) :
    update m r db = .ok (db, r, [DbOp.updateStmt]) := by
  have hrows : db.rows.map (updateRow m pkCol r) = db.rows :=
    map_eq_self_of db.rows (updateRow m pkCol r)
      (fun row hrow => by simp [updateRow, hnone row hrow])
  have hupd : update m r db =
      .ok (DBState.mk (db.rows.map (updateRow m pkCol r)) db.nextId, r, [DbOp.updateStmt]) := by
    simp only [update, hpk]
  rw [hupd, hrows]

theorem claim_C10_witness :
    update personMeta irisRec exampleDB = .ok (exampleDB, irisRec, [DbOp.updateStmt]) :=
  claim_C10_thm personMeta idCol irisRec exampleDB rfl (by decide)

end DBModels
